import Mathlib

/-!
Verification of the session-authentication module (src/server/auth.js).

The module is a thin orchestration layer over an external password-hashing
primitive (bcrypt) and a key-value store (DynamoDB) holding a `users` table
keyed by username and a `sessions` table keyed by session id.  We embed the
store as two association lists, the handlers as pure functions from store and
request data to a new store and an HTTP-visible outcome, and the two external
collaborators at their interface boundary: bcrypt as a deterministic digest
with `compare p h ↔ h = hash p`, and the store calls as total operations with
an optional injected infrastructure error (the `Option DbError` arguments),
`none` meaning the call succeeded at the store.
-/

namespace Userbase

/-- HTTP status codes are taken from the imported `statusCodes` table and from
the `statusCode` field of store errors; the handlers only ever select them by
name, so we keep them symbolic.  `fromStore` is a numeric code reported by the
store; `undefinedCode` models `res.status(e.statusCode)` when the error object
carries no `statusCode` field (auth.js line 38 has no fallback there). -/
inductive Status where
  | unauthorized
  | conflict
  | notFound
  | badRequest
  | internalServerError
  | fromStore (code : Nat)
  | undefinedCode
deriving DecidableEq, Repr

/-- Record of the `users` table: `username` (the primary key, stored
lowercase-normalized by signUp), `passwordHash` (the field `password-hash`,
a bcrypt digest) and `userId` (the field `user-id`). -/
structure User where
  username : String
  passwordHash : String
  userId : String
deriving DecidableEq, Repr

/-- Record of the `sessions` table: `sessionId` (the key `session-id`),
`userId` (`user-id`), `creationDate` (`creation-date`, a timestamp in
milliseconds) and `invalidated`.  `userId` and `creationDate` are optional
because a DynamoDB `update` on an absent key creates an item carrying only the
key and the updated attribute; `invalidated` is optional because createSession
never writes it (absent is falsy in JS). -/
structure Session where
  sessionId : String
  userId : Option String
  creationDate : Option Int
  invalidated : Option Bool
deriving DecidableEq, Repr

/-- The two logical tables of the key-value store. -/
structure Store where
  users : List User
  sessions : List Session
deriving DecidableEq, Repr

/-- An infrastructure error from a store call, as caught by the handlers:
only its optional `statusCode` field is ever consulted. -/
structure DbError where
  statusCode : Option Nat
deriving DecidableEq, Repr

/-- SALT_ROUNDS constant of auth.js line 8. -/
def SALT_ROUNDS : Nat := 10

/-- SESSION_LENGTH constant of auth.js lines 14-15: one day in milliseconds. -/
def SESSION_LENGTH : Int := 1000 * 60 * 60 * 24

/-- SESSION_COOKIE_NAME constant of auth.js line 12. -/
def SESSION_COOKIE_NAME : String := "sessionId"

/-- Keyed read on the users table (`ddbClient.get` with Key username). -/
def lookupUser (st : Store) (uname : String) : Option User :=
  st.users.find? (fun u => u.username == uname)

/-- Keyed read on the sessions table (`ddbClient.get` with Key session-id). -/
def lookupSession (st : Store) (sid : String) : Option Session :=
  st.sessions.find? (fun s => s.sessionId == sid)

/-- Modelled external collaborator: the JS `username.toLowerCase()` builtin,
as characterwise lowercasing of the string. -/
def lowercase (s : String) : String :=
  String.mk (s.data.map Char.toLower)

/-- Modelled external collaborator: `bcrypt.hash(password, SALT_ROUNDS)`.
The digest is opaque to the module; we model it as a deterministic injective
encoding so that `bcryptCompare p (bcryptHash p) = true`, which is the only
property of the pair the module relies on. -/
def bcryptHash (password : String) : String :=
  String.append "bcrypt-digest:" password

/-- Modelled external collaborator: `bcrypt.compare(password, hash)`. -/
def bcryptCompare (password h : String) : Bool :=
  h == bcryptHash password

/-- The expression `e.statusCode || statusCodes[Internal Server Error]` used
in every catch block of the handlers (a falsy statusCode, absent or 0, falls
back to the Internal Server Error status). -/
def errStatusOr500 (e : DbError) : Status :=
  match e.statusCode with
  | some n => if n == 0 then .internalServerError else .fromStore n
  | none => .internalServerError

/-- The expression `res.status(e.statusCode)` of createSession (auth.js line
38), which has no fallback to Internal Server Error. -/
def rawStatus (e : DbError) : Status :=
  match e.statusCode with
  | some n => .fromStore n
  | none => .undefinedCode

/-- Outcome of a request handler, restricted to what the module makes
HTTP-visible: an error response with a status and optional readableMessage;
a `res.json(user)` success after the session cookie was set to the fresh
session id; the `res.send(\x7b success: true \x7d)` of signOut after
`res.clearCookie`; or, for authenticateUser, the call to `next()` after
storing the session user id in `res.locals.userId`. -/
inductive HandlerResult where
  | errorResp (status : Status) (readableMessage : Option String)
  | userJson (user : User) (sessionCookie : String)
  | successBody (clearedCookie : String)
  | nextStage (userId : Option String)
deriving DecidableEq, Repr

/-- Unconditional put on the sessions table. -/
def putSession (st : Store) (s : Session) : Store :=
  { st with sessions := s :: st.sessions }

/-- createSession (auth.js lines 17-51): builds the session record with the
current timestamp and writes it; on a store error it responds with the raw
store status and reports failure (`return false`).  The random session id and
the clock are explicit arguments.  Returns the new store and `none` on
success, or the error status sent. -/
def createSession (st : Store) (userId sessionId : String) (now : Int)
    (putErr : Option DbError) : Store × Option Status :=
  match putErr with
  | some e => (st, some (rawStatus e))
  | none =>
      (putSession st { sessionId := sessionId, userId := some userId,
                       creationDate := some now, invalidated := none }, none)

/-- signUp (auth.js lines 53-96): hashes the password, builds the user record
with lowercase-normalized username and a fresh user id, conditionally inserts
it (`attribute_not_exists(username)`), and on success creates a session and
responds with the user record as JSON.  `putUserErr` injects a
non-conditional store error on the user put (rethrown to the outer catch);
the conditional-check failure itself is derived from the store state. -/
def signUp (st : Store) (username password newUserId newSessionId : String)
    (now : Int) (putUserErr putSessionErr : Option DbError) :
    Store × HandlerResult :=
  let passwordHash := bcryptHash password
  let user : User := { username := (lowercase username),
                       passwordHash := passwordHash, userId := newUserId }
  match putUserErr with
  | some e => (st, .errorResp (errStatusOr500 e) none)
  | none =>
    match lookupUser st user.username with
    | some _ => (st, .errorResp .conflict (some "Username already exists"))
    | none =>
      let st1 : Store := { st with users := user :: st.users }
      match createSession st1 user.userId newSessionId now putSessionErr with
      | (st2, none) => (st2, .userJson user newSessionId)
      | (_, some status) => (st1, .errorResp status none)

/-- signIn (auth.js lines 98-131): fetches the user by lowercase-normalized
username; absent gives Not Found "Username not found"; a bcrypt mismatch
gives Unauthorized "Incorrect password"; otherwise a session is created and
the fetched user record is the JSON response. -/
def signIn (st : Store) (username password newSessionId : String) (now : Int)
    (getErr putSessionErr : Option DbError) : Store × HandlerResult :=
  match getErr with
  | some e => (st, .errorResp (errStatusOr500 e) none)
  | none =>
    match lookupUser st (lowercase username) with
    | none => (st, .errorResp .notFound (some "Username not found"))
    | some user =>
      if bcryptCompare password user.passwordHash then
        match createSession st user.userId newSessionId now putSessionErr with
        | (st2, none) => (st2, .userJson user newSessionId)
        | (_, some status) => (st, .errorResp status none)
      else (st, .errorResp .unauthorized (some "Incorrect password"))

/-- The DynamoDB `update ... set invalidated = true` of signOut: a partial
update that sets the field on the existing item, or creates an item holding
only the key and the updated attribute when the key is absent. -/
def setInvalidated (l : List Session) (sid : String) : List Session :=
  l.map (fun s => if s.sessionId == sid then { s with invalidated := some true }
                  else s)

/-- Store effect of signOut's update call (upsert semantics). -/
def updateSessionInvalidated (st : Store) (sid : String) : Store :=
  match lookupSession st sid with
  | some _ => { st with sessions := setInvalidated st.sessions sid }
  | none =>
      { st with sessions := { sessionId := sid, userId := none,
                              creationDate := none,
                              invalidated := some true } :: st.sessions }

/-- signOut (auth.js lines 133-158): updates `invalidated = true` for the
cookie's session id, then clears the session cookie and responds
`\x7b success: true \x7d`; only a store error on the update produces a
failure, with the store's status or Internal Server Error. -/
def signOut (st : Store) (sid : String) (updateErr : Option DbError) :
    Store × HandlerResult :=
  match updateErr with
  | some e => (st, .errorResp (errStatusOr500 e) none)
  | none => (updateSessionInvalidated st sid, .successBody SESSION_COOKIE_NAME)

/-- Truthiness of the JS expression `session.invalidated` (absent and false
are both falsy). -/
def truthy (b : Option Bool) : Bool :=
  b.getD false

/-- The expression `new Date() - new Date(session[creation-date]) >
SESSION_LENGTH` (auth.js line 183).  When the record carries no
creation-date, the JS subtraction yields NaN and every comparison with NaN is
false, so the session is not considered expired. -/
def sessionExpired (now : Int) (s : Session) : Bool :=
  match s.creationDate with
  | some c => now - c > SESSION_LENGTH
  | none => false

/-- authenticateUser (auth.js lines 160-195): fetches the session record;
absent gives Unauthorized "Session does not exist"; a truthy `invalidated`
gives Unauthorized "Invalid session"; an expired session gives Unauthorized
"Session expired"; otherwise `res.locals.userId` is set to the session's
user id and `next()` is called.  It performs no store writes, so it returns
only the outcome. -/
def authenticateUser (st : Store) (sid : String) (now : Int)
    (getErr : Option DbError) : HandlerResult :=
  match getErr with
  | some e => .errorResp (errStatusOr500 e) none
  | none =>
    match lookupSession st sid with
    | none => .errorResp .unauthorized (some "Session does not exist")
    | some session =>
      if truthy session.invalidated then
        .errorResp .unauthorized (some "Invalid session")
      else if sessionExpired now session then
        .errorResp .unauthorized (some "Session expired")
      else .nextStage session.userId

/-- Helper: when the keyed find succeeds, the partial update of signOut
rewrites exactly the found record, setting invalidated to true. -/
theorem find_setInvalidated_pos (l : List Session) (sid : String)
    (s : Session) (h : l.find? (fun x => x.sessionId == sid) = some s) :
    (setInvalidated l sid).find? (fun x => x.sessionId == sid) =
      some { s with invalidated := some true } := by
  induction l with
  | nil => simp at h
  | cons a t ih =>
    simp only [setInvalidated, List.map_cons] at *
    cases ha : (a.sessionId == sid) with
    | true =>
      simp only [List.find?_cons, ha] at h
      injection h with h2
      subst h2
      simp [ha, List.find?_cons]
    | false =>
      simp only [List.find?_cons, ha] at h
      simp only [ha, Bool.false_eq_true, if_false, List.find?_cons]
      exact ih h

/-- Helper: the partial update of signOut for one key leaves the keyed find
for any other key unchanged. -/
theorem find_setInvalidated_ne (l : List Session) (sid sid2 : String)
    (hne : sid ≠ sid2) :
    (setInvalidated l sid2).find? (fun x => x.sessionId == sid) =
      l.find? (fun x => x.sessionId == sid) := by
  induction l with
  | nil => rfl
  | cons a t ih =>
    simp only [setInvalidated, List.map_cons] at *
    cases hb : (a.sessionId == sid2) with
    | true =>
      have hEq : a.sessionId = sid2 := by simpa using hb
      have hpa : (a.sessionId == sid) = false := by
        simp only [hEq, beq_eq_false_iff_ne, ne_eq]
        exact Ne.symm hne
      simp only [hb, eq_self_iff_true, if_true, List.find?_cons, hpa]
      exact ih
    | false =>
      cases hpa : (a.sessionId == sid) with
      | true =>
        simp only [hb, Bool.false_eq_true, if_false, List.find?_cons, hpa]
      | false =>
        simp only [hb, Bool.false_eq_true, if_false, List.find?_cons, hpa]
        exact ih

/-- C1: authenticateUser treats a session as valid at time `now` iff the
record exists, its invalidated flag is false or absent, and `now` minus the
session's creationDate is at most SESSION_LENGTH (24 hours); in particular a
session created at time t passes authentication at t + 23h59m, fails at
t + 24h01m, and the boundary is at exactly SESSION_LENGTH (valid at
t + SESSION_LENGTH, invalid one millisecond later). -/
theorem authenticateUser_valid_iff (st : Store) (sid : String) (now c : Int)
    (s : Session) (hs : lookupSession st sid = some s)
    (hc : s.creationDate = some c) :
    (authenticateUser st sid now none = .nextStage s.userId ↔
      (truthy s.invalidated = false ∧ now - c ≤ SESSION_LENGTH))
    ∧ (∀ t : Int,
        authenticateUser ⟨[], [⟨"sidA", some "uA", some t, none⟩]⟩ "sidA"
          (t + 1000 * 60 * (60 * 23 + 59)) none = .nextStage (some "uA"))
    ∧ (∀ t : Int,
        authenticateUser ⟨[], [⟨"sidA", some "uA", some t, none⟩]⟩ "sidA"
          (t + 1000 * 60 * (60 * 24 + 1)) none =
          .errorResp .unauthorized (some "Session expired"))
    ∧ (∀ t : Int,
        authenticateUser ⟨[], [⟨"sidA", some "uA", some t, none⟩]⟩ "sidA"
          (t + SESSION_LENGTH) none = .nextStage (some "uA"))
    ∧ (∀ t : Int,
        authenticateUser ⟨[], [⟨"sidA", some "uA", some t, none⟩]⟩ "sidA"
          (t + SESSION_LENGTH + 1) none =
          .errorResp .unauthorized (some "Session expired")) := by
  refine ⟨?_, ?_, ?_, ?_, ?_⟩
  · have hexpeq : sessionExpired now s = decide (SESSION_LENGTH < now - c) := by
      simp [sessionExpired, hc]
    by_cases hinv : truthy s.invalidated = true
    · simp [authenticateUser, hs, hinv]
    · replace hinv : truthy s.invalidated = false := by simpa using hinv
      by_cases hle : now - c ≤ SESSION_LENGTH
      · have he : sessionExpired now s = false := by
          rw [hexpeq]; simp; omega
        simp [authenticateUser, hs, hinv, he, hle]
      · have he : sessionExpired now s = true := by
          rw [hexpeq]; simp; omega
        simp [authenticateUser, hs, hinv, he, hle]
  · intro t
    simp [authenticateUser, lookupSession, truthy, sessionExpired,
      SESSION_LENGTH]
  · intro t
    simp [authenticateUser, lookupSession, truthy, sessionExpired,
      SESSION_LENGTH]
  · intro t
    simp [authenticateUser, lookupSession, truthy, sessionExpired,
      SESSION_LENGTH]
  · intro t
    simp [authenticateUser, lookupSession, truthy, sessionExpired,
      SESSION_LENGTH]
    omega

/-- Witness for C1 at a concrete store and time. -/
theorem authenticateUser_valid_iff_witness :
    (authenticateUser ⟨[], [⟨"s1", some "u1", some 0, none⟩]⟩ "s1" 5 none =
        .nextStage (some "u1") ↔
      (truthy none = false ∧ (5 : Int) - 0 ≤ SESSION_LENGTH)) :=
  (authenticateUser_valid_iff ⟨[], [⟨"s1", some "u1", some 0, none⟩]⟩ "s1" 5 0
    ⟨"s1", some "u1", some 0, none⟩ rfl rfl).1

/-- C2: authenticateUser performs its checks in order: absent record fails
Unauthorized "Session does not exist"; then a truthy invalidated flag fails
Unauthorized "Invalid session"; then an expired session fails Unauthorized
"Session expired"; otherwise it succeeds, yielding the session's userId to
the next request-handling stage. -/
theorem authenticateUser_check_order (st : Store) (sid : String) (now : Int) :
    (lookupSession st sid = none →
      authenticateUser st sid now none =
        .errorResp .unauthorized (some "Session does not exist"))
    ∧ (∀ s, lookupSession st sid = some s → truthy s.invalidated = true →
      authenticateUser st sid now none =
        .errorResp .unauthorized (some "Invalid session"))
    ∧ (∀ s, lookupSession st sid = some s → truthy s.invalidated = false →
        sessionExpired now s = true →
      authenticateUser st sid now none =
        .errorResp .unauthorized (some "Session expired"))
    ∧ (∀ s, lookupSession st sid = some s → truthy s.invalidated = false →
        sessionExpired now s = false →
      authenticateUser st sid now none = .nextStage s.userId) := by
  refine ⟨?_, ?_, ?_, ?_⟩
  · intro h; simp [authenticateUser, h]
  · intro s hs hinv; simp [authenticateUser, hs, hinv]
  · intro s hs hinv hexp; simp [authenticateUser, hs, hinv, hexp]
  · intro s hs hinv hexp; simp [authenticateUser, hs, hinv, hexp]

/-- Witness for C2: each of the four outcomes at a concrete store. -/
theorem authenticateUser_check_order_witness :
    (authenticateUser ⟨[], []⟩ "s1" 0 none =
      .errorResp .unauthorized (some "Session does not exist"))
    ∧ (authenticateUser ⟨[], [⟨"s1", some "u1", some 0, some true⟩]⟩ "s1" 0
        none = .errorResp .unauthorized (some "Invalid session"))
    ∧ (authenticateUser ⟨[], [⟨"s1", some "u1", some 0, none⟩]⟩ "s1" 99999999
        none = .errorResp .unauthorized (some "Session expired"))
    ∧ (authenticateUser ⟨[], [⟨"s1", some "u1", some 0, none⟩]⟩ "s1" 5 none =
        .nextStage (some "u1")) :=
  ⟨(authenticateUser_check_order ⟨[], []⟩ "s1" 0).1 rfl,
   (authenticateUser_check_order ⟨[], [⟨"s1", some "u1", some 0, some true⟩]⟩
      "s1" 0).2.1 ⟨"s1", some "u1", some 0, some true⟩ rfl rfl,
   (authenticateUser_check_order ⟨[], [⟨"s1", some "u1", some 0, none⟩]⟩
      "s1" 99999999).2.2.1 ⟨"s1", some "u1", some 0, none⟩ rfl rfl (by decide),
   (authenticateUser_check_order ⟨[], [⟨"s1", some "u1", some 0, none⟩]⟩
      "s1" 5).2.2.2 ⟨"s1", some "u1", some 0, none⟩ rfl rfl (by decide)⟩

/-- C3: for every sessionId whose record exists, after a successful
signOut(sessionId), authenticateUser(sessionId) fails Unauthorized with
"Invalid session" at every time — before the 24-hour expiry and after it
alike, since the invalidated check precedes the expiry check. -/
theorem signOut_then_authenticate_invalid (st : Store) (sid : String)
    (s : Session) (hs : lookupSession st sid = some s) :
    ∀ now : Int, authenticateUser (signOut st sid none).1 sid now none =
      .errorResp .unauthorized (some "Invalid session") := by
  intro now
  have h1 : lookupSession { st with sessions := setInvalidated st.sessions sid }
      sid = some { s with invalidated := some true } :=
    find_setInvalidated_pos st.sessions sid s hs
  simp only [signOut, updateSessionInvalidated, hs]
  simp [authenticateUser, h1, truthy]

/-- Witness for C3: signOut on a live session, then authentication. -/
theorem signOut_then_authenticate_invalid_witness :
    authenticateUser (signOut ⟨[], [⟨"s1", some "u1", some 0, none⟩]⟩ "s1"
        none).1 "s1" 5 none =
      .errorResp .unauthorized (some "Invalid session") :=
  signOut_then_authenticate_invalid ⟨[], [⟨"s1", some "u1", some 0, none⟩]⟩
    "s1" ⟨"s1", some "u1", some 0, none⟩ rfl 5

/-- C9: signOut returns success (body success: true) and clears the session
cookie whenever the store update completes — also for an already-invalidated
or absent session — and only a store-call error produces a failure, carried
with the store's status when present and the Internal Server Error status
otherwise. -/
theorem signOut_unconditional_success (st : Store) (sid : String) :
    ((signOut st sid none).2 = .successBody SESSION_COOKIE_NAME)
    ∧ (∀ s, lookupSession st sid = some s → truthy s.invalidated = true →
        (signOut st sid none).2 = .successBody SESSION_COOKIE_NAME)
    ∧ (lookupSession st sid = none →
        (signOut st sid none).2 = .successBody SESSION_COOKIE_NAME)
    ∧ (∀ e : DbError, signOut st sid (some e) =
        (st, .errorResp (errStatusOr500 e) none))
    ∧ (∀ e : DbError, e.statusCode = none →
        signOut st sid (some e) = (st, .errorResp .internalServerError none))
    ∧ (∀ e n, e.statusCode = some n → n ≠ 0 →
        signOut st sid (some e) = (st, .errorResp (.fromStore n) none)) := by
  refine ⟨rfl, fun s _ _ => rfl, fun _ => rfl, fun e => rfl, ?_, ?_⟩
  · intro e he
    simp [signOut, errStatusOr500, he]
  · intro e n he hn
    simp [signOut, errStatusOr500, he, hn]

/-- Witness for C9: already-invalidated and absent sessions still sign out
successfully; store errors surface with their own or the fallback status. -/
theorem signOut_unconditional_success_witness :
    ((signOut ⟨[], [⟨"s1", some "u1", some 0, some true⟩]⟩ "s1" none).2 =
      .successBody SESSION_COOKIE_NAME)
    ∧ ((signOut ⟨[], []⟩ "s9" none).2 = .successBody SESSION_COOKIE_NAME)
    ∧ (signOut ⟨[], []⟩ "s9" (some ⟨none⟩) =
      (⟨[], []⟩, .errorResp .internalServerError none))
    ∧ (signOut ⟨[], []⟩ "s9" (some ⟨some 503⟩) =
      (⟨[], []⟩, .errorResp (.fromStore 503) none)) :=
  ⟨(signOut_unconditional_success ⟨[], [⟨"s1", some "u1", some 0, some true⟩]⟩
      "s1").2.1 ⟨"s1", some "u1", some 0, some true⟩ rfl rfl,
   (signOut_unconditional_success ⟨[], []⟩ "s9").2.2.1 rfl,
   (signOut_unconditional_success ⟨[], []⟩ "s9").2.2.2.2.1 ⟨none⟩ rfl,
   (signOut_unconditional_success ⟨[], []⟩ "s9").2.2.2.2.2 ⟨some 503⟩ 503 rfl
     (by decide)⟩

/-- C4 counterexample: signUp performs no password validation.  With a blank
password it does not return a Bad Request validation failure: it hashes the
blank password, writes the user record and responds with the record. -/
theorem signUp_blank_password_accepted :
    signUp ⟨[], []⟩ "alice" "" "uid1" "sid1" 0 none none =
      (⟨[⟨"alice", bcryptHash "", "uid1"⟩],
        [⟨"sid1", some "uid1", some 0, none⟩]⟩,
       .userJson ⟨"alice", bcryptHash "", "uid1"⟩ "sid1") := by
  rfl

/-- C4 (amended): signUp performs no password validation at all: for every
password — blank, short or long alike — it hashes the password directly and
proceeds to the conditional insert, succeeding when the username is fresh and
the store calls succeed; and no run of signUp ever returns a Bad
Request-status validation failure. -/
theorem signUp_no_password_validation (st : Store)
    (username password uid sid : String) (now : Int)
    (hfresh : lookupUser st (lowercase username) = none) :
    (signUp st username password uid sid now none none =
      ({ users := ⟨(lowercase username), bcryptHash password, uid⟩ :: st.users,
         sessions := ⟨sid, some uid, some now, none⟩ :: st.sessions },
       .userJson ⟨(lowercase username), bcryptHash password, uid⟩ sid))
    ∧ ∀ (st2 : Store) (u2 p2 i2 s2 : String) (n2 : Int)
        (e1 e2 : Option DbError) (msg : Option String),
        (signUp st2 u2 p2 i2 s2 n2 e1 e2).2 ≠ .errorResp .badRequest msg := by
  constructor
  · simp [signUp, hfresh, createSession, putSession]
  · intro st2 u2 p2 i2 s2 n2 e1 e2 msg
    cases e1 with
    | some e =>
      rcases e with ⟨sc⟩
      cases sc with
      | none => simp [signUp, errStatusOr500]
      | some n =>
        by_cases hn : (n == 0) = true
        · simp [signUp, errStatusOr500, hn]
        · simp [signUp, errStatusOr500, hn]
    | none =>
      cases hlu : lookupUser st2 (lowercase u2) with
      | some u => simp [signUp, hlu]
      | none =>
        cases e2 with
        | some e =>
          rcases e with ⟨sc⟩
          cases sc with
          | none => simp [signUp, hlu, createSession, rawStatus]
          | some n => simp [signUp, hlu, createSession, rawStatus]
        | none => simp [signUp, hlu, createSession, putSession]

/-- Witness for the amended C4 at a concrete fresh store. -/
theorem signUp_no_password_validation_witness :
    signUp ⟨[], []⟩ "Bob" "x" "uid2" "sid2" 7 none none =
      ({ users := [⟨(lowercase "Bob"), bcryptHash "x", "uid2"⟩],
         sessions := [⟨"sid2", some "uid2", some 7, none⟩] },
       .userJson ⟨(lowercase "Bob"), bcryptHash "x", "uid2"⟩ "sid2") :=
  (signUp_no_password_validation ⟨[], []⟩ "Bob" "x" "uid2" "sid2" 7 rfl).1

/-- C5: signUp with a username that already exists after lowercase
normalization fails with the Conflict-status "Username already exists"
response and returns the store unchanged, so the original user record — in
particular its passwordHash — is untouched; the failing run performs no
retry, returning the conflict at once whatever the session-put outcome would
have been. -/
theorem signUp_existing_username_conflict (st : Store)
    (username password uid sid : String) (now : Int) (u : User)
    (hexists : lookupUser st (lowercase username) = some u)
    (e2 : Option DbError) :
    signUp st username password uid sid now none e2 =
      (st, .errorResp .conflict (some "Username already exists"))
    ∧ lookupUser (signUp st username password uid sid now none e2).1
        (lowercase username) = some u := by
  have h1 : signUp st username password uid sid now none e2 =
      (st, .errorResp .conflict (some "Username already exists")) := by
    simp [signUp, hexists]
  exact ⟨h1, by rw [h1]; exact hexists⟩

/-- Witness for C5: duplicate registration of alice via "ALICE". -/
theorem signUp_existing_username_conflict_witness :
    signUp ⟨[⟨"alice", bcryptHash "pw", "u1"⟩], []⟩ "ALICE" "npw" "u2" "s2" 0
        none none =
      (⟨[⟨"alice", bcryptHash "pw", "u1"⟩], []⟩,
       .errorResp .conflict (some "Username already exists"))
    ∧ lookupUser (signUp ⟨[⟨"alice", bcryptHash "pw", "u1"⟩], []⟩ "ALICE"
        "npw" "u2" "s2" 0 none none).1 (lowercase "ALICE") =
      some ⟨"alice", bcryptHash "pw", "u1"⟩ :=
  signUp_existing_username_conflict ⟨[⟨"alice", bcryptHash "pw", "u1"⟩], []⟩
    "ALICE" "npw" "u2" "s2" 0 ⟨"alice", bcryptHash "pw", "u1"⟩ (by decide) none

/-- C7: signIn distinguishes its two failures: an absent (lowercase
normalized) username gives a Not Found response with readableMessage
"Username not found"; an existing username whose password does not match the
stored hash gives an Unauthorized response with readableMessage "Incorrect
password"; and the two responses are distinct. -/
theorem signIn_distinct_failures (st : Store)
    (username password sid : String) (now : Int) :
    (lookupUser st (lowercase username) = none →
      signIn st username password sid now none none =
        (st, .errorResp .notFound (some "Username not found")))
    ∧ (∀ u, lookupUser st (lowercase username) = some u →
        bcryptCompare password u.passwordHash = false →
        signIn st username password sid now none none =
          (st, .errorResp .unauthorized (some "Incorrect password")))
    ∧ (HandlerResult.errorResp .notFound (some "Username not found") ≠
        HandlerResult.errorResp .unauthorized (some "Incorrect password")) := by
  refine ⟨?_, ?_, by decide⟩
  · intro h
    simp [signIn, h]
  · intro u hu hc
    simp [signIn, hu, hc]

/-- Witness for C7: unknown user bob, then bob with a wrong password. -/
theorem signIn_distinct_failures_witness :
    (signIn ⟨[], []⟩ "bob" "pw" "s1" 0 none none =
      (⟨[], []⟩, .errorResp .notFound (some "Username not found")))
    ∧ (signIn ⟨[⟨"bob", bcryptHash "pw", "u1"⟩], []⟩ "bob" "wrong" "s1" 0 none
        none =
      (⟨[⟨"bob", bcryptHash "pw", "u1"⟩], []⟩,
       .errorResp .unauthorized (some "Incorrect password"))) :=
  ⟨(signIn_distinct_failures ⟨[], []⟩ "bob" "pw" "s1" 0).1 rfl,
   (signIn_distinct_failures ⟨[⟨"bob", bcryptHash "pw", "u1"⟩], []⟩ "bob"
      "wrong" "s1" 0).2.1 ⟨"bob", bcryptHash "pw", "u1"⟩ rfl (by decide)⟩

/-- C6: a successful signUp followed immediately by signIn with the same
credentials succeeds, and signIn returns the very same user record — in
particular the same userId — as signUp. -/
theorem signUp_then_signIn (st : Store)
    (username password uid sid1 sid2 : String) (t1 t2 : Int)
    (hfresh : lookupUser st (lowercase username) = none) :
    ∃ u : User,
      (signUp st username password uid sid1 t1 none none).2 =
        .userJson u sid1
      ∧ ((signIn (signUp st username password uid sid1 t1 none none).1
          username password sid2 t2 none none).2 = .userJson u sid2)
      ∧ u.userId = uid := by
  refine ⟨⟨(lowercase username), bcryptHash password, uid⟩, ?_, ?_, rfl⟩
  · simp [signUp, hfresh, createSession, putSession]
  · have hst1 : (signUp st username password uid sid1 t1 none none).1 =
        { users := ⟨(lowercase username), bcryptHash password, uid⟩ ::
            st.users,
          sessions := ⟨sid1, some uid, some t1, none⟩ :: st.sessions } := by
      simp [signUp, hfresh, createSession, putSession]
    rw [hst1]
    have hlu : lookupUser
        { users := ⟨(lowercase username), bcryptHash password, uid⟩ ::
            st.users,
          sessions := ⟨sid1, some uid, some t1, none⟩ :: st.sessions }
        (lowercase username) =
        some ⟨(lowercase username), bcryptHash password, uid⟩ := by
      simp [lookupUser]
    have hcmp : bcryptCompare password (bcryptHash password) = true := by
      simp [bcryptCompare]
    simp [signIn, hlu, hcmp, createSession, putSession]

/-- Witness for C6: Alice signs up then signs in. -/
theorem signUp_then_signIn_witness :
    ∃ u : User,
      (signUp ⟨[], []⟩ "Alice" "correcthorse" "u1" "s1" 0 none none).2 =
        .userJson u "s1"
      ∧ ((signIn (signUp ⟨[], []⟩ "Alice" "correcthorse" "u1" "s1" 0 none
          none).1 "Alice" "correcthorse" "s2" 1 none none).2 =
          .userJson u "s2")
      ∧ u.userId = "u1" :=
  signUp_then_signIn ⟨[], []⟩ "Alice" "correcthorse" "u1" "s1" "s2" 0 1 rfl

/-- C8: a session record, once present, is never mutated by signUp or signIn
(whose createSession only inserts a record under a fresh session id) nor by
signOut on another session id, and the single mutation signOut performs on
the record itself is setting invalidated to true while keeping sessionId,
userId and creationDate; the updated record is always the original with
invalidated := some true — never reset to false, also when it was already
true.  authenticateUser performs no store writes (in this embedding it
returns no store at all). -/
theorem session_record_immutable (st : Store) (sid : String) (s : Session)
    (hs : lookupSession st sid = some s) :
    (∀ username password uid nsid now,
      lookupSession st nsid = none →
      lookupSession (signUp st username password uid nsid now none none).1 sid
        = some s)
    ∧ (∀ username password nsid now,
      lookupSession st nsid = none →
      lookupSession (signIn st username password nsid now none none).1 sid
        = some s)
    ∧ (∀ sid2, sid2 ≠ sid →
      lookupSession (signOut st sid2 none).1 sid = some s)
    ∧ (lookupSession (signOut st sid none).1 sid =
        some { s with invalidated := some true }) := by
  refine ⟨?_, ?_, ?_, ?_⟩
  · intro username password uid nsid now hfr
    have hne : (nsid == sid) = false := by
      rw [beq_eq_false_iff_ne]
      intro h
      rw [h, hs] at hfr
      exact Option.noConfusion hfr
    cases hlu : lookupUser st (lowercase username) with
    | some u => simp [signUp, hlu, hs]
    | none =>
      simp only [signUp, hlu, createSession, putSession]
      simp only [lookupSession, List.find?_cons, hne]
      exact hs
  · intro username password nsid now hfr
    have hne : (nsid == sid) = false := by
      rw [beq_eq_false_iff_ne]
      intro h
      rw [h, hs] at hfr
      exact Option.noConfusion hfr
    cases hlu : lookupUser st (lowercase username) with
    | none => simp [signIn, hlu, hs]
    | some u =>
      cases hcmp : bcryptCompare password u.passwordHash with
      | false => simp [signIn, hlu, hcmp, hs]
      | true =>
        simp only [signIn, hlu, hcmp, if_true, createSession, putSession]
        simp only [lookupSession, List.find?_cons, hne]
        exact hs
  · intro sid2 hne2
    cases hls : lookupSession st sid2 with
    | some s2 =>
      simp only [signOut, updateSessionInvalidated, hls]
      exact (find_setInvalidated_ne st.sessions sid sid2
        (Ne.symm hne2)).trans hs
    | none =>
      have hne : (sid2 == sid) = false := by
        rw [beq_eq_false_iff_ne]
        exact hne2
      simp only [signOut, updateSessionInvalidated, hls]
      simp only [lookupSession, List.find?_cons, hne]
      exact hs
  · simp only [signOut, updateSessionInvalidated, hs]
    exact find_setInvalidated_pos st.sessions sid s hs

/-- Witness for C8: the four preservation shapes at a concrete store. -/
theorem session_record_immutable_witness :
    (lookupSession (signUp ⟨[], [⟨"s1", some "u1", some 0, none⟩]⟩ "bob" "pw"
        "u9" "s9" 3 none none).1 "s1" = some ⟨"s1", some "u1", some 0, none⟩)
    ∧ (lookupSession (signIn ⟨[], [⟨"s1", some "u1", some 0, none⟩]⟩ "bob"
        "pw" "s9" 3 none none).1 "s1" = some ⟨"s1", some "u1", some 0, none⟩)
    ∧ (lookupSession (signOut ⟨[], [⟨"s1", some "u1", some 0, none⟩]⟩ "s2"
        none).1 "s1" = some ⟨"s1", some "u1", some 0, none⟩)
    ∧ (lookupSession (signOut ⟨[], [⟨"s1", some "u1", some 0, none⟩]⟩ "s1"
        none).1 "s1" = some ⟨"s1", some "u1", some 0, some true⟩) :=
  ⟨(session_record_immutable ⟨[], [⟨"s1", some "u1", some 0, none⟩]⟩ "s1"
      ⟨"s1", some "u1", some 0, none⟩ rfl).1 "bob" "pw" "u9" "s9" 3 rfl,
   (session_record_immutable ⟨[], [⟨"s1", some "u1", some 0, none⟩]⟩ "s1"
      ⟨"s1", some "u1", some 0, none⟩ rfl).2.1 "bob" "pw" "s9" 3 rfl,
   (session_record_immutable ⟨[], [⟨"s1", some "u1", some 0, none⟩]⟩ "s1"
      ⟨"s1", some "u1", some 0, none⟩ rfl).2.2.1 "s2" (by decide),
   (session_record_immutable ⟨[], [⟨"s1", some "u1", some 0, none⟩]⟩ "s1"
      ⟨"s1", some "u1", some 0, none⟩ rfl).2.2.2⟩

/-- C10: on success both signUp and signIn respond with the full stored user
record as the JSON body, the password-hash field (the bcrypt digest)
included: signUp responds with exactly the record it inserted — the record
is found unchanged in the resulting store — and signIn responds with exactly
the record fetched from the users table; neither strips the hash. -/
theorem success_json_includes_password_hash (st : Store)
    (username password uid sid : String) (now : Int) :
    (lookupUser st (lowercase username) = none →
      (signUp st username password uid sid now none none).2 =
        .userJson ⟨(lowercase username), bcryptHash password, uid⟩ sid
      ∧ lookupUser (signUp st username password uid sid now none none).1
          (lowercase username) =
        some ⟨(lowercase username), bcryptHash password, uid⟩)
    ∧ (∀ u, lookupUser st (lowercase username) = some u →
        bcryptCompare password u.passwordHash = true →
        (signIn st username password sid now none none).2 =
          .userJson u sid) := by
  constructor
  · intro hfresh
    have hst : (signUp st username password uid sid now none none).1 =
        { users := ⟨(lowercase username), bcryptHash password, uid⟩ ::
            st.users,
          sessions := ⟨sid, some uid, some now, none⟩ :: st.sessions } := by
      simp [signUp, hfresh, createSession, putSession]
    constructor
    · simp [signUp, hfresh, createSession, putSession]
    · rw [hst]
      simp [lookupUser]
  · intro u hu hc
    simp [signIn, hu, hc, createSession, putSession]

/-- Witness for C10: Carol signs up; dave signs in. -/
theorem success_json_includes_password_hash_witness :
    ((signUp ⟨[], []⟩ "Carol" "pw" "u1" "s1" 0 none none).2 =
        .userJson ⟨(lowercase "Carol"), bcryptHash "pw", "u1"⟩ "s1"
      ∧ lookupUser (signUp ⟨[], []⟩ "Carol" "pw" "u1" "s1" 0 none none).1
          (lowercase "Carol") =
        some ⟨(lowercase "Carol"), bcryptHash "pw", "u1"⟩)
    ∧ ((signIn ⟨[⟨"dave", bcryptHash "pw2", "u2"⟩], []⟩ "dave" "pw2" "s3" 1
        none none).2 = .userJson ⟨"dave", bcryptHash "pw2", "u2"⟩ "s3") :=
  ⟨(success_json_includes_password_hash ⟨[], []⟩ "Carol" "pw" "u1" "s1" 0).1
      rfl,
   (success_json_includes_password_hash
      ⟨[⟨"dave", bcryptHash "pw2", "u2"⟩], []⟩ "dave" "pw2" "ux" "s3" 1).2
      ⟨"dave", bcryptHash "pw2", "u2"⟩ (by decide) (by decide)⟩

end Userbase
